import Mathlib

/-!
Verification of the scenario state-coordination engine of pullpiri.

The repository's `demo_state_management.py` demonstrates the workflow:
a scenario walks the fixed state graph
idle -> waiting -> satisfied -> allowed|denied, allowed -> completed,
each transition is announced as a StateChange message, one downstream
gRPC trigger fires, and the happy-path states are persisted to etcd.

The demo script's observable behaviour is embedded as a concrete event
trace (`demoTrace`) and as the pure transition-id generator used at
line 27 of the script.  The engine proper (Transition Validator,
Scenario Registry, Transition Coordinator) is not part of the Python
sources; where a claim is decided by that engine, the corresponding
definitions are modelled from the specification and carry a
`Modelled from the spec:` doc comment.
-/

/-- The scenario lifecycle states of the fixed state graph. -/
inductive ScenarioState where
  | idle
  | waiting
  | satisfied
  | allowed
  | denied
  | completed
deriving DecidableEq, Repr

/-- Modelled from the spec: the Transition Validator (§4.1) is not in the
Python sources; it is the pure function encoding the fixed state graph
idle -> waiting -> satisfied -> allowed | denied, allowed -> completed,
with `denied` and `completed` terminal. -/
def isValidTransition : ScenarioState → ScenarioState → Bool
  | .idle, .waiting => true
  | .waiting, .satisfied => true
  | .satisfied, .allowed => true
  | .satisfied, .denied => true
  | .allowed, .completed => true
  | _, _ => false

/-- Parse the state strings used by the demo script into lifecycle states. -/
def stateOfString (s : String) : Option ScenarioState :=
  if s = "idle" then some .idle
  else if s = "waiting" then some .waiting
  else if s = "satisfied" then some .satisfied
  else if s = "allowed" then some .allowed
  else if s = "denied" then some .denied
  else if s = "completed" then some .completed
  else none

/-- A string-level edge check: both strings name states and the pair is an
edge of the fixed state graph. -/
def isValidEdgeStr (a b : String) : Bool :=
  match stateOfString a, stateOfString b with
  | some x, some y => isValidTransition x y
  | _, _ => false

/-- Python's `str.lower()` on the ASCII component names of the demo:
lowercase every character. -/
def lowerAscii (s : String) : String :=
  String.mk (s.data.map Char.toLower)

/-- The transition-id generator of `print_state_change`
(`demo_state_management.py`, line 27):
`{component.lower()}-{target_state}-{int(time.time())}`. -/
def transitionIdOf (component targetState : String) (unixTime : Nat) : String :=
  lowerAscii component ++ "-" ++ targetState ++ "-" ++ toString unixTime

/-- The etcd key used by `print_etcd_storage`
(`demo_state_management.py`, line 34): `/scenario/{scenario}/state`. -/
def etcdKeyOf (scenario : String) : String :=
  "/scenario/" ++ scenario ++ "/state"

/-- The observable events emitted by the demo script, in the order the
script emits them: StateChange messages (`print_state_change`), the
downstream gRPC trigger (step 1.4), and etcd writes
(`print_etcd_storage`). -/
inductive DemoEvent where
  | stateChange (component scenario currentState targetState details : String)
  | grpcTrigger (source target : String)
  | etcdPut (scenario state : String)
deriving DecidableEq, Repr

/-- The happy-path scenario name of the demo (`main`, line 49). -/
def scenarioName : String := "temperature-alert-scenario"

/-- The restricted scenario name of the demo (`main`, line 92). -/
def restrictedScenario : String := "security-restricted-scenario"

/-- The ordered event trace of one run of `main` in
`demo_state_management.py`: five StateChange messages (steps 1, 2, 3a,
3b, 4), the single downstream trigger of step 1.4, and the four etcd
writes of step 5 (`states_to_save`, lines 118-128). -/
def demoTrace : List DemoEvent :=
  [ .stateChange "FilterGateway" scenarioName "idle" "waiting"
      "Scenario condition satisfied",
    .grpcTrigger "FilterGateway" "ActionController",
    .stateChange "ActionController" scenarioName "waiting" "satisfied"
      "ActionController confirmed condition satisfaction",
    .stateChange "PolicyManager" scenarioName "satisfied" "allowed"
      "Policy requirements satisfied",
    .stateChange "PolicyManager" restrictedScenario "satisfied" "denied"
      "Security policy violation detected",
    .stateChange "ActionController" scenarioName "allowed" "completed"
      "All scenario actions executed successfully",
    .etcdPut scenarioName "waiting",
    .etcdPut scenarioName "satisfied",
    .etcdPut scenarioName "allowed",
    .etcdPut scenarioName "completed" ]

/-- Modelled from the spec: the TransitionRecord data model (§3) — the
engine's record type is not in the Python sources; the demo only prints
its fields.  Immutable once written. -/
structure TransitionRecord where
  transition_id : String
  source_component : String
  from_state : ScenarioState
  to_state : ScenarioState
  reason : String
  timestamp : Nat
  committed_version : Nat
deriving DecidableEq, Repr

/-- Modelled from the spec: the Scenario data model (§3) — current
state, optimistic-concurrency version, and the append-only history of
committed transitions. -/
structure Scenario where
  current_state : ScenarioState
  version : Nat
  history : List TransitionRecord
deriving DecidableEq, Repr

/-- A scenario as implicitly created: state `idle`, version 0, empty
history (spec §3, §4.2). -/
def initialScenario : Scenario :=
  { current_state := .idle, version := 0, history := [] }

/-- Modelled from the spec: the ephemeral StateChangeProposal input
message (§3); the demo's `print_state_change` calls carry the same
fields. -/
structure StateChangeProposal where
  resource_name : String
  current_state : Option ScenarioState
  target_state : ScenarioState
  source_component : String
  reason : String
deriving DecidableEq, Repr

/-- Modelled from the spec: the result of the Registry's conditional
write (§4.2). -/
inductive CommitResult where
  | Committed (newVersion : Nat)
  | Conflict (actualState : ScenarioState) (actualVersion : Nat)
deriving DecidableEq, Repr

/-- Modelled from the spec: `Registry.tryCommit` (§4.2) is not in the
Python sources.  It atomically verifies that `expectedVersion` matches
the stored version and `fromState` the stored state, then writes the new
state, increments the version and appends the record in one conditional
write; on mismatch it returns `Conflict` and leaves the scenario
untouched.  Before appending it performs the `transition_id` uniqueness
check of §8: replaying an already-committed id appends nothing. -/
def tryCommit (s : Scenario) (expectedVersion : Nat)
    (fromState toState : ScenarioState) (record : TransitionRecord) :
    CommitResult × Scenario :=
  if s.version = expectedVersion ∧ s.current_state = fromState then
    if s.history.any (fun r => r.transition_id = record.transition_id) then
      (.Committed s.version, s)
    else
      (.Committed (s.version + 1),
       { current_state := toState, version := s.version + 1,
         history := s.history ++ [record] })
  else
    (.Conflict s.current_state s.version, s)

/-- Modelled from the spec: the error kinds of §7. -/
inductive TransitionError where
  | InvalidTransition (fromState toState : ScenarioState)
  | StaleProposal
  | Contention
  | StoreUnavailable
deriving DecidableEq, Repr

/-- Outcome of a proposal: the new `(state, version)` on success, or an
error (spec §4.3, §7). -/
abbrev TransitionResult := Except TransitionError (ScenarioState × Nat)

/-- Modelled from the spec: the TransitionRecord the Coordinator
constructs for an accepted proposal (§4.3 step 4) — fresh id, the
proposer's component and reason, the read state as `from_state`, and
the version the commit will produce. -/
def mkRecord (s : Scenario) (p : StateChangeProposal) (tid : String)
    (now : Nat) : TransitionRecord :=
  { transition_id := tid, source_component := p.source_component,
    from_state := s.current_state, to_state := p.target_state,
    reason := p.reason, timestamp := now,
    committed_version := s.version + 1 }

/-- Modelled from the spec: steps 3-5 of the Coordinator's algorithm
(§4.3) — validate the proposed edge, failing with `InvalidTransition`;
otherwise build the TransitionRecord and conditionally commit through
`tryCommit`; a lost conditional write surfaces as `Contention`. -/
def attemptCommit (s : Scenario) (p : StateChangeProposal)
    (tid : String) (now : Nat) : TransitionResult × Scenario :=
  if !isValidTransition s.current_state p.target_state then
    (.error (.InvalidTransition s.current_state p.target_state), s)
  else
    match tryCommit s s.version s.current_state p.target_state
        (mkRecord s p tid now) with
    | (.Committed v, committed) => (.ok (committed.current_state, v), committed)
    | (.Conflict _ _, same) => (.error .Contention, same)

/-- Modelled from the spec: the Transition Coordinator's
`proposeTransition` (§4.3) is not in the Python sources.  Steps: read the
current `(state, version)`; fast-fail with `StaleProposal` when the
proposer's believed state differs; then validate and conditionally
commit (`attemptCommit`).  An unreachable persistence backend yields
`StoreUnavailable` with nothing committed (§7). -/
def proposeTransition (s : Scenario) (p : StateChangeProposal)
    (tid : String) (now : Nat) (storeAvailable : Bool) :
    TransitionResult × Scenario :=
  if !storeAvailable then
    (.error .StoreUnavailable, s)
  else
    match p.current_state with
    | some believed =>
      if believed ≠ s.current_state then
        (.error .StaleProposal, s)
      else
        attemptCommit s p tid now
    | none => attemptCommit s p tid now

/-- Run a list of proposals against one scenario, threading the scenario
state; each element carries the proposal, its fresh transition id and
the wall-clock second. -/
def runProposals (s : Scenario) :
    List (StateChangeProposal × String × Nat) → Scenario
  | [] => s
  | (p, tid, now) :: rest => runProposals (proposeTransition s p tid now true).2 rest

/-- The §3 invariant: the current state equals the `to_state` of the most
recent committed TransitionRecord, or `idle` when the history is empty. -/
def stateMatchesHistory (s : Scenario) : Prop :=
  s.current_state = match s.history.getLast? with
    | none => .idle
    | some r => r.to_state

/-- Modelled from the spec: the persistence-side collision policy for
transition ids (§6) is not in the Python sources.  When a freshly
generated id duplicates an already-persisted one, a monotonic
disambiguator suffix (the number of colliding persisted entries) is
appended before persistence; otherwise the id is persisted as
generated. -/
def persistedTransitionId (persisted : List String) (raw : String) : String :=
  if raw ∈ persisted then
    raw ++ "-" ++ toString (persisted.countP fun x => x = raw)
  else
    raw

/-- The happy-path proposal of demo step 1 (FilterGateway,
idle -> waiting). -/
def happyP1 : StateChangeProposal :=
  { resource_name := scenarioName, current_state := some .idle,
    target_state := .waiting, source_component := "FilterGateway",
    reason := "Scenario condition satisfied" }

/-- The happy-path proposal of demo step 2 (ActionController,
waiting -> satisfied). -/
def happyP2 : StateChangeProposal :=
  { resource_name := scenarioName, current_state := some .waiting,
    target_state := .satisfied, source_component := "ActionController",
    reason := "ActionController confirmed condition satisfaction" }

/-- The happy-path proposal of demo step 3a (PolicyManager,
satisfied -> allowed). -/
def happyP3 : StateChangeProposal :=
  { resource_name := scenarioName, current_state := some .satisfied,
    target_state := .allowed, source_component := "PolicyManager",
    reason := "Policy requirements satisfied" }

/-- The happy-path proposal of demo step 4 (ActionController,
allowed -> completed). -/
def happyP4 : StateChangeProposal :=
  { resource_name := scenarioName, current_state := some .allowed,
    target_state := .completed, source_component := "ActionController",
    reason := "All scenario actions executed successfully" }

/-- The happy-path run: the four demo proposals applied in order, with
transition ids generated exactly as at line 27 of the script. -/
def happyStep1 : TransitionResult × Scenario :=
  proposeTransition initialScenario happyP1
    (transitionIdOf "FilterGateway" "waiting" 1700000000) 1700000000 true

def happyStep2 : TransitionResult × Scenario :=
  proposeTransition happyStep1.2 happyP2
    (transitionIdOf "ActionController" "satisfied" 1700000001) 1700000001 true

def happyStep3 : TransitionResult × Scenario :=
  proposeTransition happyStep2.2 happyP3
    (transitionIdOf "PolicyManager" "allowed" 1700000002) 1700000002 true

def happyStep4 : TransitionResult × Scenario :=
  proposeTransition happyStep3.2 happyP4
    (transitionIdOf "ActionController" "completed" 1700000003) 1700000003 true

/-- The restricted-scenario proposals of spec §8: idle -> waiting,
waiting -> satisfied, then the demo step 3b denial
satisfied -> denied (PolicyManager, `security-restricted-scenario`). -/
def restrictedP1 : StateChangeProposal :=
  { resource_name := restrictedScenario, current_state := some .idle,
    target_state := .waiting, source_component := "FilterGateway",
    reason := "Scenario condition satisfied" }

def restrictedP2 : StateChangeProposal :=
  { resource_name := restrictedScenario, current_state := some .waiting,
    target_state := .satisfied, source_component := "ActionController",
    reason := "ActionController confirmed condition satisfaction" }

def restrictedP3 : StateChangeProposal :=
  { resource_name := restrictedScenario, current_state := some .satisfied,
    target_state := .denied, source_component := "PolicyManager",
    reason := "Security policy violation detected" }

def restrictedStep1 : TransitionResult × Scenario :=
  proposeTransition initialScenario restrictedP1
    (transitionIdOf "FilterGateway" "waiting" 1700000010) 1700000010 true

def restrictedStep2 : TransitionResult × Scenario :=
  proposeTransition restrictedStep1.2 restrictedP2
    (transitionIdOf "ActionController" "satisfied" 1700000011) 1700000011 true

def restrictedStep3 : TransitionResult × Scenario :=
  proposeTransition restrictedStep2.2 restrictedP3
    (transitionIdOf "PolicyManager" "denied" 1700000012) 1700000012 true

/-- A proposal with an invalid target edge (idle -> completed), used to
exercise the rejection path at a concrete input. -/
def invalidProbe : StateChangeProposal :=
  { resource_name := scenarioName, current_state := some .idle,
    target_state := .completed, source_component := "FilterGateway",
    reason := "probe" }

/-- A probe proposal out of the terminal `denied` state. -/
def deniedProbe : StateChangeProposal :=
  { resource_name := restrictedScenario, current_state := some .denied,
    target_state := .waiting, source_component := "PolicyManager",
    reason := "probe" }

/-- Recognize store-write events of the demo trace. -/
def isEtcdPutEvent : DemoEvent → Bool
  | .etcdPut _ _ => true
  | _ => false

/-- A concrete record for the first of two racing proposals. -/
def raceRec1 : TransitionRecord :=
  { transition_id := transitionIdOf "FilterGateway" "waiting" 1700000000,
    source_component := "filtergateway", from_state := .idle,
    to_state := .waiting, reason := "Scenario condition satisfied",
    timestamp := 1700000000, committed_version := 1 }

/-- A concrete record for the second of two racing proposals. -/
def raceRec2 : TransitionRecord :=
  { transition_id := transitionIdOf "FilterGateway" "waiting" 1700000001,
    source_component := "filtergateway", from_state := .idle,
    to_state := .waiting, reason := "Scenario condition satisfied",
    timestamp := 1700000001, committed_version := 1 }

/-- The store writes of a trace: `(etcd key, value)` pairs in emission
order. -/
def etcdPutsOf (trace : List DemoEvent) : List (String × String) :=
  trace.filterMap fun ev => match ev with
    | .etcdPut sc st => some (etcdKeyOf sc, st)
    | _ => none

/-! ## Helper lemmas -/

/-- `denied` is terminal: no outgoing edge in the fixed state graph. -/
theorem isValidTransition_denied (t : ScenarioState) :
    isValidTransition .denied t = false := by cases t <;> rfl

/-- `tryCommit` has exactly three outcomes: a conflict leaving the
scenario untouched, an idempotent replay leaving it untouched, or a
fresh commit that bumps the version, moves to the target state, and
appends the record. -/
theorem tryCommit_cases (s : Scenario) (v : Nat) (f t : ScenarioState)
    (r : TransitionRecord) :
    tryCommit s v f t r = (.Conflict s.current_state s.version, s)
  ∨ tryCommit s v f t r = (.Committed s.version, s)
  ∨ tryCommit s v f t r = (.Committed (s.version + 1),
      { current_state := t, version := s.version + 1,
        history := s.history ++ [r] }) := by
  unfold tryCommit
  split
  · split
    · exact Or.inr (Or.inl rfl)
    · exact Or.inr (Or.inr rfl)
  · exact Or.inl rfl

/-- `attemptCommit` either leaves the scenario exactly as it was or
reports success. -/
theorem attemptCommit_frame_or_ok (s : Scenario) (p : StateChangeProposal)
    (tid : String) (now : Nat) :
    (attemptCommit s p tid now).2 = s
  ∨ ∃ st v, (attemptCommit s p tid now).1 = .ok (st, v) := by
  unfold attemptCommit
  split
  · exact Or.inl rfl
  · split
    · rename_i v committed heq
      exact Or.inr ⟨committed.current_state, v, rfl⟩
    · rename_i a b same heq
      rcases tryCommit_cases s s.version s.current_state p.target_state
          (mkRecord s p tid now) with hc | hc | hc <;> rw [hc] at heq <;>
        simp only [Prod.mk.injEq] at heq
      · exact Or.inl heq.2.symm
      · exact absurd heq.1 (by simp)
      · exact absurd heq.1 (by simp)

/-- `proposeTransition` either leaves the scenario exactly as it was or
reports success. -/
theorem propose_frame_or_ok (s : Scenario) (p : StateChangeProposal)
    (tid : String) (now : Nat) (avail : Bool) :
    (proposeTransition s p tid now avail).2 = s
  ∨ ∃ st v, (proposeTransition s p tid now avail).1 = .ok (st, v) := by
  unfold proposeTransition
  split
  · exact Or.inl rfl
  · split
    · split
      · exact Or.inl rfl
      · exact attemptCommit_frame_or_ok s p tid now
    · exact attemptCommit_frame_or_ok s p tid now

/-- The §3 invariant is preserved by the validate-and-commit path. -/
theorem stateMatchesHistory_attemptCommit (s : Scenario)
    (p : StateChangeProposal) (tid : String) (now : Nat)
    (h : stateMatchesHistory s) :
    stateMatchesHistory (attemptCommit s p tid now).2 := by
  unfold attemptCommit
  split
  · exact h
  · split
    · rename_i v committed heq
      rcases tryCommit_cases s s.version s.current_state p.target_state
          (mkRecord s p tid now) with hc | hc | hc <;> rw [hc] at heq <;>
        simp only [Prod.mk.injEq] at heq
      · exact absurd heq.1 (by simp)
      · rw [show (Prod.snd (Except.ok (committed.current_state, v), committed))
              = committed from rfl, ← heq.2]
        exact h
      · rw [show (Prod.snd (Except.ok (committed.current_state, v), committed))
              = committed from rfl, ← heq.2]
        unfold stateMatchesHistory
        simp [mkRecord]
    · rename_i a b same heq
      rcases tryCommit_cases s s.version s.current_state p.target_state
          (mkRecord s p tid now) with hc | hc | hc <;> rw [hc] at heq <;>
        simp only [Prod.mk.injEq] at heq
      · rw [show (Prod.snd (Except.error TransitionError.Contention, same))
              = same from rfl, ← heq.2]
        exact h
      · exact absurd heq.1 (by simp)
      · exact absurd heq.1 (by simp)

/-- The §3 invariant is preserved by any single proposal. -/
theorem stateMatchesHistory_propose (s : Scenario) (p : StateChangeProposal)
    (tid : String) (now : Nat) (avail : Bool) (h : stateMatchesHistory s) :
    stateMatchesHistory (proposeTransition s p tid now avail).2 := by
  unfold proposeTransition
  split
  · exact h
  · split
    · split
      · exact h
      · exact stateMatchesHistory_attemptCommit s p tid now h
    · exact stateMatchesHistory_attemptCommit s p tid now h

/-- The §3 invariant is preserved by any sequence of proposals. -/
theorem runProposals_invariant
    (props : List (StateChangeProposal × String × Nat)) :
    ∀ s : Scenario, stateMatchesHistory s →
      stateMatchesHistory (runProposals s props) := by
  induction props with
  | nil => intro s h; exact h
  | cons hd tl ih =>
    intro s h
    obtain ⟨p, tid, now⟩ := hd
    exact ih _ (stateMatchesHistory_propose s p tid now true h)

/-- Replaying a transition id already present in the history leaves the
scenario untouched at the store level. -/
theorem tryCommit_replay (s : Scenario) (v : Nat) (f t : ScenarioState)
    (r : TransitionRecord)
    (h : (s.history.any fun x => x.transition_id = r.transition_id) = true) :
    (tryCommit s v f t r).2 = s := by
  unfold tryCommit
  split
  · simp [h]
  · rfl

/-- Any proposal out of the terminal state `denied` (with an up-to-date
or absent believed state) is rejected with `InvalidTransition` and
changes nothing. -/
theorem propose_from_denied (s : Scenario) (p : StateChangeProposal)
    (tid : String) (now : Nat) (hs : s.current_state = .denied)
    (hp : p.current_state = some .denied ∨ p.current_state = none) :
    proposeTransition s p tid now true =
      (.error (.InvalidTransition .denied p.target_state), s) := by
  have hv : isValidTransition s.current_state p.target_state = false := by
    rw [hs]; exact isValidTransition_denied p.target_state
  have hac : attemptCommit s p tid now =
      (.error (.InvalidTransition s.current_state p.target_state), s) := by
    unfold attemptCommit; rw [hv]; rfl
  rcases hp with hp | hp <;> simp [proposeTransition, hp, hs, hac]

/-! ## Claim theorems -/

/-- C1: transition validation obeys the fixed state graph — for every
`(from, to)` pair that is not an edge of the table (self-loops and
transitions out of terminal states included), `proposeTransition` never
results in a commit (it returns an error and leaves the scenario
unchanged); and every StateChange the demo program emits is an edge of
the table. -/
theorem scenario_c1 :
    (∀ (s : Scenario) (p : StateChangeProposal) (tid : String) (now : Nat)
        (avail : Bool),
        isValidTransition s.current_state p.target_state = false →
        (∃ e, (proposeTransition s p tid now avail).1 = .error e) ∧
          (proposeTransition s p tid now avail).2 = s)
    ∧ (demoTrace.all fun ev => match ev with
        | .stateChange _ _ cur tgt _ => isValidEdgeStr cur tgt
        | _ => true) = true := by
  constructor
  · intro s p tid now avail hv
    have hac : attemptCommit s p tid now =
        (.error (.InvalidTransition s.current_state p.target_state), s) := by
      unfold attemptCommit; rw [hv]; rfl
    unfold proposeTransition
    split
    · exact ⟨⟨.StoreUnavailable, rfl⟩, rfl⟩
    · split
      · split
        · exact ⟨⟨.StaleProposal, rfl⟩, rfl⟩
        · rw [hac]; exact ⟨⟨_, rfl⟩, rfl⟩
      · rw [hac]; exact ⟨⟨_, rfl⟩, rfl⟩
  · rfl

/-- Witness for C1: proposing the non-edge idle -> completed on a fresh
scenario is rejected and commits nothing. -/
theorem scenario_c1_witness :
    (∃ e, (proposeTransition initialScenario invalidProbe "probe-id" 0 true).1
        = .error e) ∧
      (proposeTransition initialScenario invalidProbe "probe-id" 0 true).2
        = initialScenario :=
  scenario_c1.1 initialScenario invalidProbe "probe-id" 0 true rfl

/-- C2: after any sequence of committed transitions, a scenario's
`current_state` equals the `to_state` of the last committed
TransitionRecord in its history, or `idle` if the history is empty. -/
theorem scenario_c2 :
    ∀ props, stateMatchesHistory (runProposals initialScenario props) :=
  fun props => runProposals_invariant props initialScenario rfl

/-- C3: the happy-path scenario — the proposals idle -> waiting,
waiting -> satisfied, satisfied -> allowed, allowed -> completed are each
accepted, producing versions 1, 2, 3, 4 in order, with final state
`completed` and history length 4. -/
theorem scenario_c3 :
    happyStep1.1 = .ok (.waiting, 1) ∧ happyStep2.1 = .ok (.satisfied, 2) ∧
    happyStep3.1 = .ok (.allowed, 3) ∧ happyStep4.1 = .ok (.completed, 4) ∧
    happyStep4.2.current_state = .completed ∧
    happyStep4.2.history.length = 4 :=
  ⟨rfl, rfl, rfl, rfl, rfl, rfl⟩

/-- C4: the restricted scenario — idle -> waiting, waiting -> satisfied
and satisfied -> denied are each accepted in order, and afterwards every
proposal out of the terminal state `denied` (to any target state) is
rejected with `InvalidTransition` and changes nothing. -/
theorem scenario_c4 :
    restrictedStep1.1 = .ok (.waiting, 1) ∧
    restrictedStep2.1 = .ok (.satisfied, 2) ∧
    restrictedStep3.1 = .ok (.denied, 3) ∧
    ∀ (p : StateChangeProposal) (tid : String) (now : Nat),
      (p.current_state = some .denied ∨ p.current_state = none) →
      (proposeTransition restrictedStep3.2 p tid now true).1 =
          .error (.InvalidTransition .denied p.target_state) ∧
        (proposeTransition restrictedStep3.2 p tid now true).2 =
          restrictedStep3.2 := by
  refine ⟨rfl, rfl, rfl, ?_⟩
  intro p tid now hp
  have h := propose_from_denied restrictedStep3.2 p tid now rfl hp
  rw [h]
  exact ⟨rfl, rfl⟩

/-- Witness for C4: after the denial, a denied -> waiting proposal is
rejected with `InvalidTransition`. -/
theorem scenario_c4_witness :
    (proposeTransition restrictedStep3.2 deniedProbe "probe-id-2" 0 true).1 =
      .error (.InvalidTransition .denied .waiting) :=
  (scenario_c4.2.2.2 deniedProbe "probe-id-2" 0 (Or.inl rfl)).1

/-- C5 counterexample: the claim that every committed transition is
persisted before any downstream trigger fires is false for the demo
program — the gRPC trigger to ActionController (trace index 1) for the
idle -> waiting transition fires while no store write has happened yet;
the first persistence of `waiting` only occurs at trace index 6. -/
theorem scenario_c5_counterexample :
    demoTrace[1]? = some (.grpcTrigger "FilterGateway" "ActionController") ∧
    demoTrace[6]? = some (.etcdPut scenarioName "waiting") ∧
    ((demoTrace.take 6).all
      fun ev => !(ev == .etcdPut scenarioName "waiting")) = true ∧
    ((demoTrace.take 2).all fun ev => !(isEtcdPutEvent ev)) = true :=
  ⟨rfl, rfl, rfl, rfl⟩

/-- C5 (amended): every committed transition of the happy-path scenario
is persisted during the run, but persistence happens after the
downstream trigger, not before — the trigger fires at trace index 1 and
all four states are written to the store only later. -/
theorem scenario_c5 :
    demoTrace[1]? = some (.grpcTrigger "FilterGateway" "ActionController") ∧
    DemoEvent.etcdPut scenarioName "waiting" ∈ demoTrace.drop 2 ∧
    DemoEvent.etcdPut scenarioName "satisfied" ∈ demoTrace.drop 2 ∧
    DemoEvent.etcdPut scenarioName "allowed" ∈ demoTrace.drop 2 ∧
    DemoEvent.etcdPut scenarioName "completed" ∈ demoTrace.drop 2 := by
  refine ⟨rfl, ?_, ?_, ?_, ?_⟩ <;> decide

/-- C6: two proposals racing on the same scenario with the same
`expectedVersion` — whichever conditional write is applied first commits
and increments the version exactly once; the other receives `Conflict`.
Both orders are covered since the store state, target states and
records are arbitrary. -/
theorem scenario_c6 :
    ∀ (s : Scenario) (v : Nat) (f t1 t2 : ScenarioState)
      (r1 r2 : TransitionRecord),
      s.version = v → s.current_state = f →
      (s.history.any fun r => r.transition_id = r1.transition_id) = false →
      (tryCommit s v f t1 r1).1 = .Committed (v + 1) ∧
        (tryCommit (tryCommit s v f t1 r1).2 v f t2 r2).1 =
          .Conflict t1 (v + 1) := by
  intro s v f t1 t2 r1 r2 hv hf hfresh
  subst hv; subst hf
  have h1 : tryCommit s s.version s.current_state t1 r1 =
      (.Committed (s.version + 1),
       { current_state := t1, version := s.version + 1,
         history := s.history ++ [r1] }) := by
    unfold tryCommit
    rw [if_pos ⟨rfl, rfl⟩, if_neg (by simp [hfresh])]
  rw [h1]
  refine ⟨rfl, ?_⟩
  unfold tryCommit
  rw [if_neg (fun hcon => Nat.succ_ne_self s.version hcon.1)]

/-- Witness for C6: two concrete racing idle -> waiting proposals on a
fresh scenario — the first commits version 1, the second conflicts. -/
theorem scenario_c6_witness :
    (tryCommit initialScenario 0 .idle .waiting raceRec1).1 = .Committed 1 ∧
      (tryCommit (tryCommit initialScenario 0 .idle .waiting raceRec1).2
        0 .idle .waiting raceRec2).1 = .Conflict .waiting 1 :=
  scenario_c6 initialScenario 0 .idle .waiting .waiting raceRec1 raceRec2
    rfl rfl rfl

/-- C7: transition application is atomic with respect to errors — every
proposal that ends in an error (InvalidTransition, StaleProposal,
Contention, StoreUnavailable) leaves the scenario's state, version and
history exactly as they were. -/
theorem scenario_c7 :
    ∀ (s : Scenario) (p : StateChangeProposal) (tid : String) (now : Nat)
      (avail : Bool) (e : TransitionError),
      (proposeTransition s p tid now avail).1 = .error e →
      (proposeTransition s p tid now avail).2 = s := by
  intro s p tid now avail e h
  rcases propose_frame_or_ok s p tid now avail with h2 | ⟨st, v, h2⟩
  · exact h2
  · rw [h2] at h
    exact Except.noConfusion h

/-- Witness for C7: a rejected idle -> completed proposal leaves the
fresh scenario unchanged. -/
theorem scenario_c7_witness :
    (proposeTransition initialScenario invalidProbe "probe-id-3" 0 true).2 =
      initialScenario :=
  scenario_c7 initialScenario invalidProbe "probe-id-3" 0 true
    (.InvalidTransition .idle .completed) rfl

/-- C8: every generated transition id has the form
`{source_component_lowercase}-{target_state}-{unix_timestamp}` (as at
line 27 of the demo), and when a generated id collides with an already
persisted one, the disambiguator suffix appended before persistence
makes the persisted id differ from the colliding one. -/
theorem scenario_c8 :
    transitionIdOf "FilterGateway" "waiting" 1700000000 =
        "filtergateway-waiting-1700000000" ∧
    (∀ (c t : String) (ts : Nat),
        transitionIdOf c t ts =
          lowerAscii c ++ "-" ++ t ++ "-" ++ toString ts) ∧
    ∀ (persisted : List String) (raw : String),
      raw ∈ persisted → persistedTransitionId persisted raw ≠ raw := by
  refine ⟨rfl, fun c t ts => rfl, ?_⟩
  intro persisted raw hmem
  unfold persistedTransitionId
  rw [if_pos hmem]
  intro heq
  have hlen := congrArg String.length heq
  rw [String.length_append, String.length_append] at hlen
  have hone : ("-" : String).length = 1 := rfl
  rw [hone] at hlen
  omega

/-- Witness for C8: persisting a second id identical to one already in
the store yields a different (suffixed) persisted id. -/
theorem scenario_c8_witness :
    persistedTransitionId ["filtergateway-waiting-1700000000"]
        "filtergateway-waiting-1700000000" ≠
      "filtergateway-waiting-1700000000" :=
  scenario_c8.2.2 ["filtergateway-waiting-1700000000"]
    "filtergateway-waiting-1700000000" (List.mem_singleton.mpr rfl)

/-- C9: replaying a proposal whose transition id is already present in
the scenario's history is idempotent — no duplicate history entry is
created and the scenario's state, version and history are unchanged. -/
theorem scenario_c9 :
    ∀ (s : Scenario) (p : StateChangeProposal) (tid : String) (now : Nat)
      (avail : Bool),
      (s.history.any fun r => r.transition_id = tid) = true →
      (proposeTransition s p tid now avail).2 = s := by
  intro s p tid now avail h
  have hac : (attemptCommit s p tid now).2 = s := by
    unfold attemptCommit
    split
    · rfl
    · split
      · rename_i v committed heq
        have hr := tryCommit_replay s s.version s.current_state p.target_state
          (mkRecord s p tid now) h
        rw [heq] at hr
        exact hr
      · rename_i a b same heq
        have hr := tryCommit_replay s s.version s.current_state p.target_state
          (mkRecord s p tid now) h
        rw [heq] at hr
        exact hr
  unfold proposeTransition
  split
  · rfl
  · split
    · split
      · rfl
      · exact hac
    · exact hac

/-- Witness for C9: replaying the already-committed first happy-path
transition id leaves the scenario exactly as it was. -/
theorem scenario_c9_witness :
    (proposeTransition happyStep1.2 happyP1
      (transitionIdOf "FilterGateway" "waiting" 1700000000) 1700000005
      true).2 = happyStep1.2 :=
  scenario_c9 happyStep1.2 happyP1
    (transitionIdOf "FilterGateway" "waiting" 1700000000) 1700000005 true rfl

/-- C10: the persistence step of the demo writes exactly four store
entries, all under the key `/scenario/temperature-alert-scenario/state`,
with values waiting, satisfied, allowed, completed in that order; no
store entry is ever written for the restricted scenario. -/
theorem scenario_c10 :
    etcdPutsOf demoTrace =
      [("/scenario/temperature-alert-scenario/state", "waiting"),
       ("/scenario/temperature-alert-scenario/state", "satisfied"),
       ("/scenario/temperature-alert-scenario/state", "allowed"),
       ("/scenario/temperature-alert-scenario/state", "completed")] ∧
    (etcdPutsOf demoTrace).length = 4 ∧
    (demoTrace.all fun ev => match ev with
      | .etcdPut sc _ => sc == scenarioName
      | _ => true) = true ∧
    (demoTrace.all fun ev => match ev with
      | .etcdPut sc _ => !(sc == restrictedScenario)
      | _ => true) = true :=
  ⟨rfl, rfl, rfl, rfl⟩
